import Mathlib

/-!
# Verification of the TechSync real-time socket handler

A shallow embedding of `backend/utils/socketHandler.js` (the real-time
connection and signaling subsystem): the `UserConnectionManager` registry,
the authentication-gate connection cap, the `send_message` and
`send_friend_message` handlers, the typing-indicator debounce, the
`video_offer` router and the disconnect handler.  JavaScript `Map`s are
modelled as association lists, JS `Set`s as duplicate-free lists in
insertion order, `Date.now()` timestamps as `Int` milliseconds, and JS
strings (for message content, where truncation by code units matters) as
`List Char`.  Database queries go against an explicit `Store` value;
supabase's `.single()` (which errors unless the result set has exactly one
row) is modelled by `singleRow`.
-/

namespace TechSync

/-! ## Association lists: the model of JS `Map` -/

/-- Lookup in an association list (JS `Map.get`). -/
def alookup {α : Type} : List (String × α) → String → Option α
  | [], _ => none
  | (k, v) :: t, k' => if k = k' then some v else alookup t k'

/-- JS `Map.set`: overwrite in place if the key is present (keys are unique,
so replacing the first occurrence suffices), else append. -/
def aset {α : Type} : List (String × α) → String → α → List (String × α)
  | [], k, v => [(k, v)]
  | p :: t, k, v => if p.1 = k then (k, v) :: t else p :: aset t k v

/-- JS `Map.delete`. -/
def aerase {α : Type} (m : List (String × α)) (k : String) :
    List (String × α) :=
  m.filter (fun p => p.1 ≠ k)

/-- JS `Set.add`: append iff absent (insertion order preserved). -/
def setAdd (l : List String) (s : String) : List String :=
  if s ∈ l then l else l ++ [s]

/-- JS `Set.delete`. -/
def setDel (l : List String) (s : String) : List String :=
  l.filter (fun x => x ≠ s)

/-! ## The `UserConnectionManager` registry -/

/-- The in-memory connection registry (`UserConnectionManager`):
`userSockets : userId -> Set of socketIds`, `socketUsers : socketId -> userId`,
`socketRooms : socketId -> Set of rooms`. -/
structure ConnectionManager where
  userSockets : List (String × List String)
  socketUsers : List (String × String)
  socketRooms : List (String × List String)
deriving Repr, DecidableEq

def emptyCM : ConnectionManager := ⟨[], [], []⟩

/-- The socket set currently recorded for a user (empty if the key is absent). -/
def getUserSet (cm : ConnectionManager) (userId : String) : List String :=
  (alookup cm.userSockets userId).getD []

/-- `UserConnectionManager.getUserSocketCount`:
`this.userSockets.get(userId)?.size || 0`. -/
def getUserSocketCount (cm : ConnectionManager) (userId : String) : Nat :=
  match alookup cm.userSockets userId with
  | some s => s.length
  | none => 0

/-- `UserConnectionManager.addConnection`. -/
def addConnection (cm : ConnectionManager) (userId socketId : String) :
    ConnectionManager :=
  { userSockets := aset cm.userSockets userId (setAdd (getUserSet cm userId) socketId)
    socketUsers := aset cm.socketUsers socketId userId
    socketRooms := aset cm.socketRooms socketId [] }

/-- `UserConnectionManager.addRoom`. -/
def addRoom (cm : ConnectionManager) (socketId room : String) :
    ConnectionManager :=
  let rooms' := setAdd ((alookup cm.socketRooms socketId).getD []) room
  { cm with socketRooms := aset cm.socketRooms socketId rooms' }

/-- `UserConnectionManager.removeConnection`. -/
def removeConnection (cm : ConnectionManager) (socketId : String) :
    ConnectionManager :=
  let userSockets' :=
    match alookup cm.socketUsers socketId with
    | some userId =>
        match alookup cm.userSockets userId with
        | some l =>
            let l' := setDel l socketId
            if l'.length = 0 then aerase cm.userSockets userId
            else aset cm.userSockets userId l'
        | none => cm.userSockets
    | none => cm.userSockets
  { userSockets := userSockets'
    socketUsers := aerase cm.socketUsers socketId
    socketRooms := aerase cm.socketRooms socketId }

/-- `UserConnectionManager.getRooms`: the room set of a socket (empty if absent). -/
def getRooms (cm : ConnectionManager) (socketId : String) : List String :=
  (alookup cm.socketRooms socketId).getD []

/-! ## Authentication gate: the per-user connection cap

`io.use` verifies the token and resolves the profile, then rejects with
`new Error('Maximum connections exceeded')` when
`connectionManager.getUserSocketCount(user.id) >= MAX_CONNECTIONS_PER_USER`;
on success the `connection` handler calls `connectionManager.addConnection`.
`connectAttempt` models this post-token-validation path for one handshake. -/

def MAX_CONNECTIONS_PER_USER : Nat := 10

/-- One connection attempt by an already-authenticated user: either the
registry is left untouched and a rejection reason is produced, or the
connection is registered. -/
def connectAttempt (cm : ConnectionManager) (userId socketId : String) :
    ConnectionManager × Option String :=
  if MAX_CONNECTIONS_PER_USER ≤ getUserSocketCount cm userId then
    (cm, some "Maximum connections exceeded")
  else
    (addConnection cm userId socketId, none)

/-- A sequence of connection attempts by one user; returns the final registry
and, per attempt, `none` on success or the rejection reason. -/
def runConnects (cm : ConnectionManager) (userId : String) :
    List String → ConnectionManager × List (Option String)
  | [] => (cm, [])
  | sid :: rest =>
      let r := connectAttempt cm userId sid
      let rec' := runConnects r.1 userId rest
      (rec'.1, r.2 :: rec'.2)

/-! ## The external data store

An explicit value standing for the relational database consulted by the
handlers.  `chatInsertFails` / `friendInsertFails` model a downstream
insert failure (the `insertError` branch of the handlers). -/

/-- A `chat_rooms` row (the columns the handler reads). -/
structure ChatRoom where
  id : String
  project_id : String
deriving Repr, DecidableEq

/-- A `user_friendships` row. -/
structure Friendship where
  requester_id : String
  addressee_id : String
  status : String
deriving Repr, DecidableEq

/-- A `chat_messages` row as inserted by `send_message`. -/
structure ChatMessage where
  room_id : String
  user_id : String
  message_type : String
  content : List Char
  reply_to_message_id : Option String
deriving Repr, DecidableEq

/-- A `friend_messages` row as inserted by `send_friend_message`. -/
structure FriendMessage where
  sender_id : String
  recipient_id : String
  content : List Char
deriving Repr, DecidableEq

structure Store where
  chatRooms : List ChatRoom
  projectMembers : List (String × String)
  friendships : List Friendship
  chatMessages : List ChatMessage
  friendMessages : List FriendMessage
  chatInsertFails : Bool
  friendInsertFails : Bool
deriving Repr, DecidableEq

/-- supabase `.single()`: succeeds iff the query returned exactly one row. -/
def singleRow {α : Type} : List α → Option α
  | [a] => some a
  | _ => none

/-- `chat_rooms` lookup `eq('id', roomId).single()`. -/
def roomQuery (st : Store) (roomId : String) : Option ChatRoom :=
  singleRow (st.chatRooms.filter (fun r => r.id = roomId))

/-- `project_members` lookup
`eq('project_id', projectId).eq('user_id', userId).single()`. -/
def memberQuery (st : Store) (projectId userId : String) :
    Option (String × String) :=
  singleRow (st.projectMembers.filter
    (fun pm => pm.1 = projectId ∧ pm.2 = userId))

/-- `user_friendships` lookup: rows accepted in either direction between the
two users, then `.single()`. -/
def friendshipQuery (st : Store) (senderId recipientId : String) :
    Option Friendship :=
  singleRow (st.friendships.filter (fun f =>
    (f.requester_id = senderId ∧ f.addressee_id = recipientId ∧
      f.status = "accepted") ∨
    (f.requester_id = recipientId ∧ f.addressee_id = senderId ∧
      f.status = "accepted")))

/-! ## JS string helpers (content as `List Char`) -/

/-- JS `String.prototype.trim`. -/
def jsTrim (s : List Char) : List Char :=
  ((s.dropWhile Char.isWhitespace).reverse.dropWhile Char.isWhitespace).reverse

/-- Truthiness of a possibly-absent id string: JS `!x` for `undefined`/`""`. -/
def idFalsy : Option String → Bool
  | none => true
  | some s => s = ""

/-- Truthiness of `content?.trim()`: falsy when absent or all-whitespace. -/
def contentFalsy : Option (List Char) → Bool
  | none => true
  | some c => jsTrim c = []

/-! ## The `send_message` handler -/

/-- A `send_message` payload as destructured by the handler
(`messageType` defaults to `'text'`, `replyToMessageId` to `null`). -/
structure MessageData where
  roomId : Option String
  projectId : Option String
  content : Option (List Char)
  messageType : String
  replyToMessageId : Option String
deriving Repr, DecidableEq

/-- The per-connection state touched by `send_message`: the
`messageTimestamps` rate-limit window and the store. -/
structure SendState where
  timestamps : List Int
  store : Store
deriving Repr, DecidableEq

def MESSAGE_RATE_LIMIT : Nat := 10

def MAX_MESSAGE_LENGTH : Nat := 5000

/-- The rate-limit window update performed by every non-rate-limited
`send_message`: push `Date.now(), then shift off entries older than one
minute (`messageTimestamps.push(now)` followed by the `while ... shift()`
loop). -/
def advanceWindow (nowMs : Int) (st : SendState) : SendState :=
  { st with timestamps :=
      (st.timestamps ++ [nowMs]).dropWhile (fun t => t < nowMs - 60000) }

/-- The row a successful `send_message` inserts (content truncated to
`MAX_MESSAGE_LENGTH`). -/
def insertedMessage (userId : String) (d : MessageData) : ChatMessage :=
  { room_id := d.roomId.getD ""
    user_id := userId
    message_type := d.messageType
    content := (d.content.getD []).take MAX_MESSAGE_LENGTH
    reply_to_message_id := d.replyToMessageId }

/-- The `send_message` handler at time `nowMs` (`Date.now()`), for the socket
of user `userId`.  Returns the updated per-connection state and either
`Except.error m` (the handler emitted `error` with message `m` and returned)
or `Except.ok msg` (the row `msg` was inserted; the handler then broadcasts
`new_message` and acknowledges with `message_sent`).  Control flow follows
the source: rate check (before any window update), window update, payload
validation, parallel room/membership lookups, insert. -/
def sendMessage (nowMs : Int) (userId : String) (st : SendState)
    (data : MessageData) : SendState × Except String ChatMessage :=
  if MESSAGE_RATE_LIMIT ≤
      (st.timestamps.filter (fun t => nowMs - 60000 < t)).length then
    (st, Except.error "Message rate limit exceeded")
  else if idFalsy data.roomId ∨ contentFalsy data.content ∨
      idFalsy data.projectId then
    (advanceWindow nowMs st, Except.error "Invalid message data")
  else
    match roomQuery st.store (data.roomId.getD "") with
    | none => (advanceWindow nowMs st, Except.error "Chat room not found")
    | some _ =>
        match memberQuery st.store (data.projectId.getD "") userId with
        | none =>
            (advanceWindow nowMs st, Except.error "Not a project member")
        | some _ =>
            if st.store.chatInsertFails then
              (advanceWindow nowMs st,
               Except.error "Failed to send message")
            else
              ({ timestamps := (advanceWindow nowMs st).timestamps
                 store := { st.store with chatMessages :=
                     st.store.chatMessages ++
                       [insertedMessage userId data] } },
               Except.ok (insertedMessage userId data))

/-- A chronological sequence of `send_message` events on one connection. -/
def runSends (userId : String) (st : SendState) :
    List (Int × MessageData) → SendState × List (Except String ChatMessage)
  | [] => (st, [])
  | (t, d) :: rest =>
      let r := sendMessage t userId st d
      let rec' := runSends userId r.1 rest
      (rec'.1, r.2 :: rec'.2)

/-! ## Emissions -/

/-- Where an emitted event goes: `socket.emit` (the sender only),
`io.to(room).emit` (everyone in a room), `socket.to(room).emit` (the room
minus the sender), `clientSocket.emit` (one specific socket), or
`io.emit` (a global broadcast to every connection — listed so that
"never broadcasts globally" is expressible; no handler modelled here
uses it). -/
inductive EmitTarget where
  | sender
  | room (name : String)
  | roomExceptSender (name : String)
  | socket (sid : String)
  | all
deriving Repr, DecidableEq

/-- The payloads of the events the modelled handlers emit. -/
inductive Payload where
  | err (message : String)
  | friendMessage (senderId : String) (msg : FriendMessage)
  | friendMessageSent (msg : FriendMessage)
  | userTyping (userId username roomId projectId : String)
  | userStoppedTyping (userId roomId projectId : String)
  | userOffline (userId projectId : String)
  | videoOffer (userId username avatarUrl offer roomId : String)
  | videoParticipantLeft (userId roomId : String)
deriving Repr, DecidableEq

structure Emit where
  target : EmitTarget
  event : String
  payload : Payload
deriving Repr, DecidableEq

/-! ## The `send_friend_message` handler -/

/-- The row a successful `send_friend_message` inserts (content trimmed). -/
def sentFriendMessage (senderId : String) (recipientId : Option String)
    (content : Option (List Char)) : FriendMessage :=
  { sender_id := senderId
    recipient_id := recipientId.getD ""
    content := jsTrim (content.getD []) }

/-- The `send_friend_message` handler for the socket of user `senderId`.
Returns the updated store and the emitted events, in emission order:
validation, friendship lookup (accepted, either direction, `.single()`),
insert, then delivery to the recipient's mailbox room `user_{recipientId}`
and a `friend_message_sent` acknowledgement to the sender. -/
def sendFriendMessage (senderId : String) (store : Store)
    (recipientId : Option String) (content : Option (List Char)) :
    Store × List Emit :=
  if idFalsy recipientId ∨ contentFalsy content then
    (store, [⟨EmitTarget.sender, "error", Payload.err "Invalid message data"⟩])
  else
    match friendshipQuery store senderId (recipientId.getD "") with
    | none =>
        (store,
         [⟨EmitTarget.sender, "error",
           Payload.err "Not friends with this user"⟩])
    | some _ =>
        if store.friendInsertFails then
          (store,
           [⟨EmitTarget.sender, "error",
             Payload.err "Failed to send message"⟩])
        else
          ({ store with friendMessages := store.friendMessages ++
              [sentFriendMessage senderId recipientId content] },
           [⟨EmitTarget.room ("user_" ++ recipientId.getD ""),
             "friend_message",
             Payload.friendMessage senderId
               (sentFriendMessage senderId recipientId content)⟩,
            ⟨EmitTarget.sender, "friend_message_sent",
             Payload.friendMessageSent
               (sentFriendMessage senderId recipientId content)⟩])

/-! ## The typing-indicator machine

`typingTimeouts` is the per-socket `Map` from `roomId` to the armed
`setTimeout`, modelled as the timer's deadline (arming time + 5000 ms)
together with the `projectId` captured by the timer's closure.  A run
processes a chronological list of `typing_start` / `typing_stop` events;
before each event, and once more at a final horizon, every timer whose
deadline has passed fires its `user_stopped_typing` broadcast. -/

structure TimerEntry where
  deadline : Int
  projectId : String
deriving Repr, DecidableEq

/-- Timers expired at time `now` fire (in arming order, which under
chronological processing is deadline order); the rest stay armed. -/
def fireExpired (userId : String) (timeouts : List (String × TimerEntry))
    (now : Int) : List (String × TimerEntry) × List Emit :=
  (timeouts.filter (fun p => ¬ p.2.deadline ≤ now),
   (timeouts.filter (fun p => p.2.deadline ≤ now)).map (fun p =>
     ⟨EmitTarget.roomExceptSender ("room_" ++ p.1), "user_stopped_typing",
      Payload.userStoppedTyping userId p.1 p.2.projectId⟩))

inductive TypingEvent where
  | start (time : Int) (roomId projectId : String)
  | stop (time : Int) (roomId projectId : String)
deriving Repr, DecidableEq

/-- One `typing_start` / `typing_stop` handler invocation (after expired
timers have fired).  `typing_start` clears any armed timer for the room,
broadcasts `user_typing`, and arms a fresh 5-second timer; `typing_stop`
clears the timer and broadcasts `user_stopped_typing`. -/
def typingHandle (userId username : String)
    (timeouts : List (String × TimerEntry)) (e : TypingEvent) :
    List (String × TimerEntry) × List Emit :=
  match e with
  | TypingEvent.start t roomId projectId =>
      (aset timeouts roomId ⟨t + 5000, projectId⟩,
       [⟨EmitTarget.roomExceptSender ("room_" ++ roomId), "user_typing",
         Payload.userTyping userId username roomId projectId⟩])
  | TypingEvent.stop _ roomId projectId =>
      (aerase timeouts roomId,
       [⟨EmitTarget.roomExceptSender ("room_" ++ roomId),
         "user_stopped_typing",
         Payload.userStoppedTyping userId roomId projectId⟩])

def TypingEvent.time : TypingEvent → Int
  | TypingEvent.start t _ _ => t
  | TypingEvent.stop t _ _ => t

/-- Run a chronological event list, then let time advance to `horizon`
(firing whatever timers expire by then).  Returns the armed timers and the
full emission trace. -/
def runTyping (userId username : String)
    (timeouts : List (String × TimerEntry)) :
    List TypingEvent → Int → List (String × TimerEntry) × List Emit
  | [], horizon =>
      fireExpired userId timeouts horizon
  | e :: rest, horizon =>
      let f := fireExpired userId timeouts e.time
      let h := typingHandle userId username f.1 e
      let r := runTyping userId username h.1 rest horizon
      (r.1, f.2 ++ h.2 ++ r.2)

/-! ## The `video_offer` router -/

/-- One live socket as seen by `io.sockets.sockets`: its id, the user that
owns it, its profile fields, and its transport-level room set
(`socket.rooms`). -/
structure LiveSocket where
  sid : String
  userId : String
  username : String
  avatar_url : String
  rooms : List String
deriving Repr, DecidableEq

/-- The `video_offer` handler: scan every live socket and emit the offer to
each one whose user is `targetUserId` and whose rooms include
`video_{roomId}`. -/
def videoOffer (senderId senderUsername senderAvatar : String)
    (sockets : List LiveSocket) (roomId targetUserId offer : String) :
    List Emit :=
  sockets.filterMap (fun cs =>
    if cs.userId = targetUserId ∧ ("video_" ++ roomId) ∈ cs.rooms then
      some ⟨EmitTarget.socket cs.sid, "video_offer",
        Payload.videoOffer senderId senderUsername senderAvatar offer roomId⟩
    else none)

/-! ## The disconnect handler -/

/-- JS `String.prototype.startsWith` (written over `.data` so that it
evaluates inside the kernel). -/
def strStarts (s pre : String) : Bool := pre.data.isPrefixOf s.data

/-- Drop the first `n` code units of a string (again over `.data`). -/
def strDrop (s : String) (n : Nat) : String := ⟨s.data.drop n⟩

/-- JS `room.replace('project_', '')` under a `startsWith('project_')`
guard: drop the 8-character prefix. -/
def stripProject (room : String) : String := strDrop room 8

/-- The `disconnect` handler for socket `socketId` of user `userId`:
broadcast `video_participant_left` to every `video_*` transport room,
clear the typing timers (no emission), emit `user_offline` to every
`project_*` room in the registry's membership set for the socket, then
remove the socket from the registry.  `transportRooms` is `socket.rooms`.
Returns the updated registry and the emission trace. -/
def disconnect (cm : ConnectionManager) (socketId userId : String)
    (transportRooms : List String) : ConnectionManager × List Emit :=
  let videoEmits := transportRooms.filterMap (fun room =>
    if strStarts room "video_" then
      some ⟨EmitTarget.roomExceptSender room, "video_participant_left",
        Payload.videoParticipantLeft userId (strDrop room 6)⟩
    else none)
  let offlineEmits := (getRooms cm socketId).filterMap (fun room =>
    if strStarts room "project_" then
      some ⟨EmitTarget.roomExceptSender room, "user_offline",
        Payload.userOffline userId (stripProject room)⟩
    else none)
  (removeConnection cm socketId, videoEmits ++ offlineEmits)

/-! ## Basic lemmas about the map and set models -/

theorem alookup_aset_self {α : Type} (m : List (String × α)) (k : String)
    (v : α) : alookup (aset m k v) k = some v := by
  induction m with
  | nil => simp [aset, alookup]
  | cons p t ih =>
      by_cases h : p.1 = k
      · simp [aset, alookup, h]
      · simp [aset, alookup, h, ih]

theorem alookup_aset_ne {α : Type} (m : List (String × α)) {k k' : String}
    (v : α) (h : k ≠ k') : alookup (aset m k v) k' = alookup m k' := by
  induction m with
  | nil => simp [aset, alookup, h]
  | cons p t ih =>
      by_cases hp : p.1 = k
      · have hpk' : ¬ p.1 = k' := by rw [hp]; exact h
        simp [aset, alookup, hp, hpk', h]
      · by_cases hq : p.1 = k' <;>
          simp [aset, alookup, hp, hq, ih, Ne.symm h]

theorem alookup_aerase_self {α : Type} (m : List (String × α)) (k : String) :
    alookup (aerase m k) k = none := by
  induction m with
  | nil => simp [aerase, alookup]
  | cons p t ih =>
      by_cases h : p.1 = k
      · simpa [aerase, h] using ih
      · simpa [aerase, alookup, h] using ih

theorem alookup_aerase_ne {α : Type} (m : List (String × α)) {k k' : String}
    (h : k ≠ k') : alookup (aerase m k) k' = alookup m k' := by
  induction m with
  | nil => simp [aerase, alookup]
  | cons p t ih =>
      by_cases hp : p.1 = k
      · have hpk' : ¬ p.1 = k' := by rw [hp]; exact h
        have h1 : aerase (p :: t) k = aerase t k := by simp [aerase, hp]
        rw [h1, ih]
        simp [alookup, hpk']
      · have h1 : aerase (p :: t) k = p :: aerase t k := by simp [aerase, hp]
        rw [h1]
        by_cases hq : p.1 = k' <;> simp [alookup, hq, ih]

theorem setAdd_of_not_mem {l : List String} {s : String} (h : s ∉ l) :
    setAdd l s = l ++ [s] := by
  simp [setAdd, h]

theorem setDel_length_of_count_one {l : List String} {s : String}
    (h : l.count s = 1) : (setDel l s).length = l.length - 1 := by
  induction l with
  | nil => simp at h
  | cons a t ih =>
      by_cases ha : a = s
      · subst ha
        have ht : t.count a = 0 := by
          have h' := h
          simp [List.count_cons] at h'
          omega
        have htm : a ∉ t := (List.count_eq_zero).mp ht
        have hdel : setDel t a = t := by
          apply List.filter_eq_self.mpr
          intro x hx
          simp only [decide_eq_true_eq]
          exact fun hxa => htm (hxa ▸ hx)
        have h1 : setDel (a :: t) a = setDel t a := by simp [setDel]
        rw [h1, hdel]
        simp
      · have hsa : ¬ s = a := fun hh => ha hh.symm
        have hcnt : t.count s = 1 := by
          have h' := h
          simp [List.count_cons, hsa] at h'
          exact h'
        have hcl : t.count s ≤ t.length := t.count_le_length s
        have h1 : setDel (a :: t) s = a :: setDel t s := by simp [setDel, ha]
        rw [h1]
        simp only [List.length_cons]
        rw [ih hcnt]
        omega

/-! ## Registry lemmas -/

theorem getUserSocketCount_eq (cm : ConnectionManager) (u : String) :
    getUserSocketCount cm u = (getUserSet cm u).length := by
  unfold getUserSocketCount getUserSet
  cases alookup cm.userSockets u <;> simp

theorem getUserSet_addConnection_self (cm : ConnectionManager)
    (u s : String) :
    getUserSet (addConnection cm u s) u = setAdd (getUserSet cm u) s := by
  unfold getUserSet addConnection
  rw [alookup_aset_self]
  rfl

theorem getUserSet_empty (u : String) : getUserSet emptyCM u = [] := by
  simp [getUserSet, emptyCM, alookup]

/-- Under the cap, a run of fresh, distinct connection attempts all succeed
and the user's socket set accumulates them in order. -/
theorem runConnects_all_ok (u : String) :
    ∀ (sids : List String) (cm : ConnectionManager),
      sids.Nodup → (∀ s ∈ sids, s ∉ getUserSet cm u) →
      (getUserSet cm u).length + sids.length ≤ MAX_CONNECTIONS_PER_USER →
      (runConnects cm u sids).2 = sids.map (fun _ => none) ∧
      getUserSet (runConnects cm u sids).1 u = getUserSet cm u ++ sids := by
  intro sids
  induction sids with
  | nil => intro cm _ _ _; exact ⟨rfl, by simp [runConnects]⟩
  | cons s rest ih =>
      intro cm hnd hfresh hlen
      have hsf : s ∉ getUserSet cm u := hfresh s (by simp)
      have hcnt : ¬ MAX_CONNECTIONS_PER_USER ≤ getUserSocketCount cm u := by
        rw [getUserSocketCount_eq]
        simp only [List.length_cons, MAX_CONNECTIONS_PER_USER] at hlen ⊢
        omega
      have hstep : connectAttempt cm u s = (addConnection cm u s, none) := by
        simp [connectAttempt, hcnt]
      have hset : getUserSet (addConnection cm u s) u =
          getUserSet cm u ++ [s] := by
        rw [getUserSet_addConnection_self, setAdd_of_not_mem hsf]
      have hnd' : rest.Nodup := (List.nodup_cons.mp hnd).2
      have hsr : s ∉ rest := (List.nodup_cons.mp hnd).1
      have hfresh' : ∀ x ∈ rest, x ∉ getUserSet (addConnection cm u s) u := by
        intro x hx
        rw [hset]
        simp only [List.mem_append, List.mem_singleton]
        rintro (hx1 | hx1)
        · exact hfresh x (by simp [hx]) hx1
        · exact hsr (hx1 ▸ hx)
      have hlen' : (getUserSet (addConnection cm u s) u).length +
          rest.length ≤ MAX_CONNECTIONS_PER_USER := by
        rw [hset]
        have h2 : (getUserSet cm u ++ [s]).length =
            (getUserSet cm u).length + 1 := by simp
        rw [h2]
        simp only [List.length_cons] at hlen
        omega
      have hmain := ih (addConnection cm u s) hnd' hfresh' hlen'
      refine ⟨?_, ?_⟩
      · show (runConnects cm u (s :: rest)).2 = none :: rest.map (fun _ => none)
        simp only [runConnects, hstep]
        exact congrArg (none :: ·) hmain.1
      · show getUserSet (runConnects cm u (s :: rest)).1 u =
          getUserSet cm u ++ s :: rest
        simp only [runConnects, hstep]
        rw [hmain.2, hset]
        simp

/-- C3: starting from an empty registry, N ≤ 10 successful authentications by
user U with distinct fresh sockets all pass the gate and leave
`countForUser(U) = N`; when N = 10 (the cap), the next attempt is rejected
with the "Maximum connections exceeded" reason and the registry is returned
unchanged (the connection never enters it). -/
theorem connection_cap_registry (U extra : String) (sids : List String)
    (hnd : sids.Nodup) (hlen : sids.length ≤ MAX_CONNECTIONS_PER_USER) :
    (runConnects emptyCM U sids).2 = sids.map (fun _ => none) ∧
    getUserSocketCount (runConnects emptyCM U sids).1 U = sids.length ∧
    (sids.length = 10 →
      connectAttempt (runConnects emptyCM U sids).1 U extra =
        ((runConnects emptyCM U sids).1,
         some "Maximum connections exceeded")) := by
  have hbase := runConnects_all_ok U sids emptyCM hnd
    (by intro s _; rw [getUserSet_empty]; exact List.not_mem_nil s)
    (by rw [getUserSet_empty]; simpa using hlen)
  have hcount : getUserSocketCount (runConnects emptyCM U sids).1 U =
      sids.length := by
    rw [getUserSocketCount_eq, hbase.2, getUserSet_empty]
    simp
  refine ⟨hbase.1, hcount, ?_⟩
  intro h10
  have : MAX_CONNECTIONS_PER_USER ≤
      getUserSocketCount (runConnects emptyCM U sids).1 U := by
    rw [hcount, h10]
    decide
  simp [connectAttempt, this]

/-- Witness for `connection_cap_registry`: ten distinct sockets for one user
all connect, the count is 10, and the eleventh handshake is refused. -/
theorem connection_cap_registry_witness :
    (runConnects emptyCM "u1"
      ["s1", "s2", "s3", "s4", "s5", "s6", "s7", "s8", "s9", "s10"]).2 =
      (["s1", "s2", "s3", "s4", "s5", "s6", "s7", "s8", "s9", "s10"].map
        (fun _ => none)) ∧
    getUserSocketCount (runConnects emptyCM "u1"
      ["s1", "s2", "s3", "s4", "s5", "s6", "s7", "s8", "s9", "s10"]).1 "u1" =
      ["s1", "s2", "s3", "s4", "s5", "s6", "s7", "s8", "s9", "s10"].length ∧
    (["s1", "s2", "s3", "s4", "s5", "s6", "s7", "s8", "s9", "s10"].length = 10 →
      connectAttempt (runConnects emptyCM "u1"
        ["s1", "s2", "s3", "s4", "s5", "s6", "s7", "s8", "s9", "s10"]).1
        "u1" "s11" =
        ((runConnects emptyCM "u1"
          ["s1", "s2", "s3", "s4", "s5", "s6", "s7", "s8", "s9", "s10"]).1,
         some "Maximum connections exceeded")) :=
  connection_cap_registry "u1" "s11"
    ["s1", "s2", "s3", "s4", "s5", "s6", "s7", "s8", "s9", "s10"]
    (by decide) (by decide)

/-! ## C7: disconnect decrements the count and leaves other sockets alone -/

/-- C7: if user U owns socket s (recorded exactly once in U's socket set, as
a JS `Set` guarantees) and U has at least two open connections, then the
disconnect of s decrements `countForUser(U)` (`getUserSocketCount`) by
exactly one, and the room-membership set of every other socket in the
registry is unchanged. -/
theorem disconnect_decrements_and_frames (cm : ConnectionManager)
    (s U : String) (trooms : List String)
    (hsu : alookup cm.socketUsers s = some U)
    (hcount1 : (getUserSet cm U).count s = 1)
    (h2 : 2 ≤ getUserSocketCount cm U) :
    getUserSocketCount (disconnect cm s U trooms).1 U =
      getUserSocketCount cm U - 1 ∧
    (∀ s', s' ≠ s →
      getRooms (disconnect cm s U trooms).1 s' = getRooms cm s') := by
  have hfst : (disconnect cm s U trooms).1 = removeConnection cm s := rfl
  obtain ⟨l, halu⟩ : ∃ l, alookup cm.userSockets U = some l := by
    cases hl : alookup cm.userSockets U with
    | none => rw [getUserSocketCount_eq] at h2; simp [getUserSet, hl] at h2
    | some l => exact ⟨l, rfl⟩
  have hlset : getUserSet cm U = l := by simp [getUserSet, halu]
  have hcl : getUserSocketCount cm U = l.length := by
    simp [getUserSocketCount, halu]
  have hcnt : l.count s = 1 := by rw [hlset] at hcount1; exact hcount1
  have hdl : (setDel l s).length = l.length - 1 :=
    setDel_length_of_count_one hcnt
  have hne0 : ¬ (setDel l s).length = 0 := by
    rw [hdl]; rw [hcl] at h2; omega
  have hrm : (removeConnection cm s).userSockets =
      aset cm.userSockets U (setDel l s) := by
    simp [removeConnection, hsu, halu, hne0]
  constructor
  · rw [hfst]
    unfold getUserSocketCount
    rw [hrm, alookup_aset_self, halu]
    show (setDel l s).length = l.length - 1
    exact hdl
  · intro s' hs'
    rw [hfst]
    unfold getRooms
    have : (removeConnection cm s).socketRooms = aerase cm.socketRooms s :=
      rfl
    rw [this, alookup_aerase_ne _ (Ne.symm hs')]

/-- Witness for `disconnect_decrements_and_frames`: user u1 holds sockets s1
and s2 (s1 joined a project room); disconnecting s2 leaves count 1 and s1's
rooms intact. -/
theorem disconnect_decrements_and_frames_witness :
    getUserSocketCount (disconnect
      (addRoom (addConnection (addConnection emptyCM "u1" "s1") "u1" "s2")
        "s1" "project_a") "s2" "u1" []).1 "u1" =
      getUserSocketCount
        (addRoom (addConnection (addConnection emptyCM "u1" "s1") "u1" "s2")
          "s1" "project_a") "u1" - 1 ∧
    (∀ s', s' ≠ "s2" →
      getRooms (disconnect
        (addRoom (addConnection (addConnection emptyCM "u1" "s1") "u1" "s2")
          "s1" "project_a") "s2" "u1" []).1 s' =
      getRooms
        (addRoom (addConnection (addConnection emptyCM "u1" "s1") "u1" "s2")
          "s1" "project_a") s') :=
  disconnect_decrements_and_frames _ "s2" "u1" []
    (by decide) (by decide) (by decide)

/-! ## C6: scoped offline presence on disconnect -/

theorem filterMap_guard {α β : Type} (p : α → Bool) (f : α → β)
    (l : List α) :
    (l.filterMap fun a => if p a then some (f a) else none) =
      (l.filter p).map f := by
  induction l with
  | nil => rfl
  | cons a t ih =>
      cases h : p a <;>
        simp [List.filterMap_cons, List.filter_cons, h, ih]

/-- C6: when the registry's membership set for a socket holds exactly two
project rooms, the disconnect handler emits exactly two `user_offline`
events, one scoped (sender-excluded) to each of those rooms, and no event of
the disconnect trace is a global broadcast. -/
theorem disconnect_offline_two_rooms (cm : ConnectionManager)
    (sid uid : String) (trooms : List String) (r1 r2 : String)
    (h : (getRooms cm sid).filter (fun r => strStarts r "project_") =
      [r1, r2]) :
    (disconnect cm sid uid trooms).2.filter
        (fun e => e.event = "user_offline") =
      [⟨EmitTarget.roomExceptSender r1, "user_offline",
        Payload.userOffline uid (stripProject r1)⟩,
       ⟨EmitTarget.roomExceptSender r2, "user_offline",
        Payload.userOffline uid (stripProject r2)⟩] ∧
    ∀ e ∈ (disconnect cm sid uid trooms).2, e.target ≠ EmitTarget.all := by
  have hd : (disconnect cm sid uid trooms).2 =
      (trooms.filter (fun r => strStarts r "video_")).map
        (fun room => ⟨EmitTarget.roomExceptSender room,
          "video_participant_left",
          Payload.videoParticipantLeft uid (strDrop room 6)⟩) ++
      ((getRooms cm sid).filter (fun r => strStarts r "project_")).map
        (fun room => ⟨EmitTarget.roomExceptSender room, "user_offline",
          Payload.userOffline uid (stripProject room)⟩) := by
    simp only [disconnect]
    rw [filterMap_guard, filterMap_guard]
  constructor
  · rw [hd, List.filter_append]
    have h1 : ((trooms.filter (fun r => strStarts r "video_")).map
        (fun room => (⟨EmitTarget.roomExceptSender room,
          "video_participant_left",
          Payload.videoParticipantLeft uid (strDrop room 6)⟩ : Emit))).filter
          (fun e => e.event = "user_offline") = [] := by
      simp [List.filter_map, Function.comp]
    have h2 : (((getRooms cm sid).filter
        (fun r => strStarts r "project_")).map
        (fun room => (⟨EmitTarget.roomExceptSender room, "user_offline",
          Payload.userOffline uid (stripProject room)⟩ : Emit))).filter
          (fun e => e.event = "user_offline") =
        ((getRooms cm sid).filter (fun r => strStarts r "project_")).map
        (fun room => (⟨EmitTarget.roomExceptSender room, "user_offline",
          Payload.userOffline uid (stripProject room)⟩ : Emit)) := by
      simp [List.filter_map, Function.comp]
    rw [h1, h2, h]
    simp
  · intro e he
    rw [hd] at he
    rcases List.mem_append.mp he with h' | h' <;>
      (obtain ⟨r, _, rfl⟩ := List.mem_map.mp h'; simp)

/-- Witness for `disconnect_offline_two_rooms`: socket s1 is registered in
`project_a`, `room_x` and `project_b`; its disconnect emits `user_offline`
exactly for the two project rooms. -/
theorem disconnect_offline_two_rooms_witness :
    (disconnect
      (addRoom (addRoom (addRoom (addConnection emptyCM "u1" "s1")
        "s1" "project_a") "s1" "room_x") "s1" "project_b")
      "s1" "u1" ["video_v1"]).2.filter
        (fun e => e.event = "user_offline") =
      [⟨EmitTarget.roomExceptSender "project_a", "user_offline",
        Payload.userOffline "u1" (stripProject "project_a")⟩,
       ⟨EmitTarget.roomExceptSender "project_b", "user_offline",
        Payload.userOffline "u1" (stripProject "project_b")⟩] ∧
    ∀ e ∈ (disconnect
      (addRoom (addRoom (addRoom (addConnection emptyCM "u1" "s1")
        "s1" "project_a") "s1" "room_x") "s1" "project_b")
      "s1" "u1" ["video_v1"]).2, e.target ≠ EmitTarget.all :=
  disconnect_offline_two_rooms _ "s1" "u1" ["video_v1"]
    "project_a" "project_b" (by decide)

/-! ## C8: video offer routing -/

theorem filterMap_guard_prop {α β : Type} (p : α → Prop) [DecidablePred p]
    (f : α → β) (l : List α) :
    (l.filterMap fun a => if p a then some (f a) else none) =
      (l.filter fun a => decide (p a)).map f := by
  induction l with
  | nil => rfl
  | cons a t ih =>
      by_cases h : p a <;>
        simp [List.filterMap_cons, List.filter_cons, h, ih]

/-- C8: `video_offer` emits exactly one `video_offer` event per live socket
whose user is `targetUserId` and whose rooms include `video_{roomId}`
(the payload forwarded verbatim); hence with no matching socket nothing at
all is emitted (in particular no error event reaches the caller), and with
exactly one matching socket the offer goes to that single socket. -/
theorem video_offer_routing (senderId senderUsername senderAvatar : String)
    (sockets : List LiveSocket) (roomId targetUserId offer : String) :
    (videoOffer senderId senderUsername senderAvatar sockets roomId
        targetUserId offer =
      (sockets.filter fun cs => decide (cs.userId = targetUserId ∧
          ("video_" ++ roomId) ∈ cs.rooms)).map
        (fun cs => ⟨EmitTarget.socket cs.sid, "video_offer",
          Payload.videoOffer senderId senderUsername senderAvatar offer
            roomId⟩)) ∧
    ((∀ cs ∈ sockets, ¬ (cs.userId = targetUserId ∧
        ("video_" ++ roomId) ∈ cs.rooms)) →
      videoOffer senderId senderUsername senderAvatar sockets roomId
        targetUserId offer = []) ∧
    (∀ cs0 : LiveSocket,
      (sockets.filter fun cs => decide (cs.userId = targetUserId ∧
          ("video_" ++ roomId) ∈ cs.rooms)) = [cs0] →
      videoOffer senderId senderUsername senderAvatar sockets roomId
        targetUserId offer =
        [⟨EmitTarget.socket cs0.sid, "video_offer",
          Payload.videoOffer senderId senderUsername senderAvatar offer
            roomId⟩]) := by
  have hmain : videoOffer senderId senderUsername senderAvatar sockets roomId
      targetUserId offer =
      (sockets.filter fun cs => decide (cs.userId = targetUserId ∧
          ("video_" ++ roomId) ∈ cs.rooms)).map
        (fun cs => ⟨EmitTarget.socket cs.sid, "video_offer",
          Payload.videoOffer senderId senderUsername senderAvatar offer
            roomId⟩) := by
    unfold videoOffer
    exact filterMap_guard_prop _ _ _
  refine ⟨hmain, ?_, ?_⟩
  · intro hno
    rw [hmain]
    have : (sockets.filter fun cs => decide (cs.userId = targetUserId ∧
        ("video_" ++ roomId) ∈ cs.rooms)) = [] := by
      apply List.filter_eq_nil_iff.mpr
      intro cs hcs
      simpa using hno cs hcs
    rw [this]
    rfl
  · intro cs0 hone
    rw [hmain, hone]
    rfl

/-- Witness for `video_offer_routing`: two sockets, neither in the target
video room (one is the right user but not in the room, one is in the room
but the wrong user) — nothing is emitted; after the right user joins the
room, the offer reaches exactly that socket. -/
theorem video_offer_routing_witness :
    (videoOffer "u1" "alice" "a.png"
      [⟨"s2", "u2", "bob", "b.png", ["room_r1"]⟩,
       ⟨"s3", "u3", "carol", "c.png", ["video_v1"]⟩]
      "v1" "u2" "sdp-offer" = []) ∧
    (videoOffer "u1" "alice" "a.png"
      [⟨"s2", "u2", "bob", "b.png", ["room_r1", "video_v1"]⟩,
       ⟨"s3", "u3", "carol", "c.png", ["video_v1"]⟩]
      "v1" "u2" "sdp-offer" =
      [⟨EmitTarget.socket "s2", "video_offer",
        Payload.videoOffer "u1" "alice" "a.png" "sdp-offer" "v1"⟩]) :=
  ⟨(video_offer_routing "u1" "alice" "a.png"
      [⟨"s2", "u2", "bob", "b.png", ["room_r1"]⟩,
       ⟨"s3", "u3", "carol", "c.png", ["video_v1"]⟩]
      "v1" "u2" "sdp-offer").2.1 (by decide),
   (video_offer_routing "u1" "alice" "a.png"
      [⟨"s2", "u2", "bob", "b.png", ["room_r1", "video_v1"]⟩,
       ⟨"s3", "u3", "carol", "c.png", ["video_v1"]⟩]
      "v1" "u2" "sdp-offer").2.2
     ⟨"s2", "u2", "bob", "b.png", ["room_r1", "video_v1"]⟩ (by decide)⟩

/-! ## Rate-limit window arithmetic -/

theorem dropWhile_eq_self_of {α : Type} {p : α → Bool} {l : List α}
    (h : ∀ x ∈ l, p x = false) : l.dropWhile p = l := by
  cases l with
  | nil => rfl
  | cons a t => simp [List.dropWhile_cons, h a (by simp)]

theorem mem_dropWhile_concat {p : Int → Bool} {a : Int} (l : List Int)
    (h : p a = false) : a ∈ (l ++ [a]).dropWhile p := by
  induction l with
  | nil => simp [List.dropWhile_cons, h]
  | cons b t ih =>
      by_cases hb : p b
      · simpa [List.dropWhile_cons, hb] using ih
      · simp [List.dropWhile_cons, hb]

theorem filter_dropWhile {α : Type} {p q : α → Bool} (l : List α)
    (h : ∀ x, q x = true → p x = false) :
    (l.dropWhile q).filter p = l.filter p := by
  induction l with
  | nil => rfl
  | cons a t ih =>
      by_cases hq : q a
      · simp [List.dropWhile_cons, hq, List.filter_cons, h a hq, ih]
      · simp [List.dropWhile_cons, hq]

/-- Rate check passed: the handler appends `Date.now()` to the window,
ages out old entries, and whatever happens afterwards the produced error (if
any) is never the rate-limit error. -/
theorem sendMessage_state (nowMs : Int) (uid : String) (st : SendState)
    (d : MessageData)
    (hrate : ¬ MESSAGE_RATE_LIMIT ≤
      (st.timestamps.filter (fun t => nowMs - 60000 < t)).length) :
    (sendMessage nowMs uid st d).1.timestamps =
      (st.timestamps ++ [nowMs]).dropWhile (fun t => t < nowMs - 60000) ∧
    (sendMessage nowMs uid st d).2 ≠
      Except.error "Message rate limit exceeded" := by
  unfold sendMessage
  rw [if_neg hrate]
  by_cases hv : idFalsy d.roomId = true ∨ contentFalsy d.content = true ∨
      idFalsy d.projectId = true
  · rw [if_pos hv]
    exact ⟨rfl, by simp⟩
  · rw [if_neg hv]
    cases hr : roomQuery st.store (d.roomId.getD "") with
    | none => exact ⟨rfl, by simp⟩
    | some r =>
        cases hm : memberQuery st.store (d.projectId.getD "") uid with
        | none => exact ⟨rfl, by simp⟩
        | some pm =>
            by_cases hi : st.store.chatInsertFails = true
            · rw [if_pos hi]
              exact ⟨rfl, by simp⟩
            · rw [if_neg hi]
              exact ⟨rfl, by simp⟩

/-- Rate check failed: the handler returns immediately, state untouched. -/
theorem sendMessage_rate_limited (nowMs : Int) (uid : String)
    (st : SendState) (d : MessageData)
    (h : MESSAGE_RATE_LIMIT ≤
      (st.timestamps.filter (fun t => nowMs - 60000 < t)).length) :
    sendMessage nowMs uid st d =
      (st, Except.error "Message rate limit exceeded") := by
  unfold sendMessage
  rw [if_pos h]

/-- A fully successful `send_message`: the row is appended to the store and
the timestamp window extends by `nowMs`. -/
theorem sendMessage_ok (nowMs : Int) (uid : String) (prev : List Int)
    (store : Store) (d : MessageData) (r : ChatRoom) (pm : String × String)
    (hrate : ¬ MESSAGE_RATE_LIMIT ≤
      ((prev.filter (fun t => nowMs - 60000 < t)).length))
    (hkeep : ∀ x ∈ prev, ¬ x < nowMs - 60000)
    (hvalid : ¬ (idFalsy d.roomId = true ∨ contentFalsy d.content = true ∨
      idFalsy d.projectId = true))
    (hroom : roomQuery store (d.roomId.getD "") = some r)
    (hmem : memberQuery store (d.projectId.getD "") uid = some pm)
    (hins : store.chatInsertFails = false) :
    sendMessage nowMs uid ⟨prev, store⟩ d =
      (⟨prev ++ [nowMs],
        { store with chatMessages :=
            store.chatMessages ++ [insertedMessage uid d] }⟩,
       Except.ok (insertedMessage uid d)) := by
  have hts : (prev ++ [nowMs]).dropWhile
      (fun t => decide (t < nowMs - 60000)) = prev ++ [nowMs] := by
    apply dropWhile_eq_self_of
    intro x hx
    rcases List.mem_append.mp hx with hx | hx
    · simpa using hkeep x hx
    · simp at hx
      subst hx
      simp only [decide_eq_false_iff_not]
      omega
  unfold sendMessage
  rw [if_neg hrate, if_neg hvalid]
  rw [hroom, hmem]
  rw [if_neg (by simp [hins])]
  unfold advanceWindow
  simp only [hts]

/-- Any chronological burst of `send_message` events (arbitrary payloads)
whose arrival times all lie within one rolling 60-second window and whose
count fits under the cap: every event passes the rate limiter and the
window accumulates exactly the arrival times, in order. -/
theorem runSends_window (uid : String) :
    ∀ (evs : List (Int × MessageData)) (prev : List Int) (store : Store),
      (∀ x ∈ prev ++ evs.map Prod.fst, ∀ y ∈ prev ++ evs.map Prod.fst,
        y - 60000 < x) →
      prev.length + evs.length ≤ MESSAGE_RATE_LIMIT →
      (runSends uid ⟨prev, store⟩ evs).1.timestamps =
        prev ++ evs.map Prod.fst ∧
      ∀ res ∈ (runSends uid ⟨prev, store⟩ evs).2,
        res ≠ Except.error "Message rate limit exceeded" := by
  intro evs
  induction evs with
  | nil =>
      intro prev store _ _
      exact ⟨by simp [runSends], by intro res h; simp [runSends] at h⟩
  | cons ev rest ih =>
      intro prev store hW hlen
      obtain ⟨t, d⟩ := ev
      have htmem : t ∈ prev ++ ((t, d) :: rest).map Prod.fst := by simp
      have hfull : (prev.filter (fun x => t - 60000 < x)) = prev := by
        apply List.filter_eq_self.mpr
        intro x hx
        simp only [decide_eq_true_eq]
        exact hW x (by simp [hx]) t htmem
      have hrate : ¬ MESSAGE_RATE_LIMIT ≤
          ((prev.filter (fun x => t - 60000 < x)).length) := by
        rw [hfull]
        simp only [List.length_cons, MESSAGE_RATE_LIMIT] at hlen ⊢
        omega
      have hst := sendMessage_state t uid ⟨prev, store⟩ d hrate
      have hkeep : ∀ x ∈ prev ++ [t], decide (x < t - 60000) = false := by
        intro x hx
        simp only [decide_eq_false_iff_not]
        rcases List.mem_append.mp hx with hx | hx
        · have := hW x (by simp [hx]) t htmem
          omega
        · simp at hx
          omega
      have hts : (sendMessage t uid ⟨prev, store⟩ d).1.timestamps =
          prev ++ [t] := by
        rw [hst.1]
        exact dropWhile_eq_self_of hkeep
      have hA1 : (sendMessage t uid ⟨prev, store⟩ d).1 =
          (⟨prev ++ [t], (sendMessage t uid ⟨prev, store⟩ d).1.store⟩ :
            SendState) := by
        rw [← hts]
      have hW' : ∀ x ∈ (prev ++ [t]) ++ rest.map Prod.fst,
          ∀ y ∈ (prev ++ [t]) ++ rest.map Prod.fst, y - 60000 < x := by
        intro x hx y hy
        refine hW x ?_ y ?_ <;> (simp at hx hy ⊢; tauto)
      have hlen' : (prev ++ [t]).length + rest.length ≤
          MESSAGE_RATE_LIMIT := by
        simp only [List.length_append, List.length_cons,
          List.length_nil] at hlen ⊢
        omega
      have hmain := ih (prev ++ [t])
        (sendMessage t uid ⟨prev, store⟩ d).1.store hW' hlen'
      constructor
      · show (runSends uid (sendMessage t uid ⟨prev, store⟩ d).1
            rest).1.timestamps = prev ++ t :: rest.map Prod.fst
        rw [hA1, hmain.1]
        simp
      · intro res hres
        have : res = (sendMessage t uid ⟨prev, store⟩ d).2 ∨
            res ∈ (runSends uid (sendMessage t uid ⟨prev, store⟩ d).1
              rest).2 := by
          simpa [runSends] using hres
        rcases this with h | h
        · rw [h]; exact hst.2
        · rw [hA1] at h
          exact hmain.2 res h

/-- C4: from a fresh connection, ten `send_message` events whose timestamps
lie inside one rolling 60-second window all pass the rate limiter; an
eleventh inside the same window is answered with the rate-limit error and
changes nothing (state, including the store, is returned untouched, so
nothing is persisted for it). -/
theorem send_message_rate_limit_window (uid : String) (store : Store)
    (evs : List (Int × MessageData)) (t11 : Int) (d11 : MessageData)
    (hlen : evs.length = 10)
    (hW : ∀ x ∈ evs.map Prod.fst ++ [t11],
      ∀ y ∈ evs.map Prod.fst ++ [t11], y - 60000 < x) :
    (∀ res ∈ (runSends uid ⟨[], store⟩ evs).2,
      res ≠ Except.error "Message rate limit exceeded") ∧
    sendMessage t11 uid (runSends uid ⟨[], store⟩ evs).1 d11 =
      ((runSends uid ⟨[], store⟩ evs).1,
       Except.error "Message rate limit exceeded") := by
  have hWr : ∀ x ∈ [] ++ evs.map Prod.fst, ∀ y ∈ [] ++ evs.map Prod.fst,
      y - 60000 < x := by
    intro x hx y hy
    simp only [List.nil_append] at hx hy
    exact hW x (by simp [hx]) y (by simp [hy])
  have hrun := runSends_window uid evs [] store hWr
    (by simp [hlen, MESSAGE_RATE_LIMIT])
  refine ⟨hrun.2, ?_⟩
  have hts : (runSends uid ⟨[], store⟩ evs).1.timestamps =
      evs.map Prod.fst := by simpa using hrun.1
  have hfull : ((runSends uid ⟨[], store⟩ evs).1.timestamps.filter
      (fun x => t11 - 60000 < x)) = evs.map Prod.fst := by
    rw [hts]
    apply List.filter_eq_self.mpr
    intro x hx
    simp only [decide_eq_true_eq]
    exact hW x (by simp [hx]) t11 (by simp)
  have hge : MESSAGE_RATE_LIMIT ≤
      ((runSends uid ⟨[], store⟩ evs).1.timestamps.filter
        (fun x => t11 - 60000 < x)).length := by
    rw [hfull]
    simp [hlen, MESSAGE_RATE_LIMIT]
  exact sendMessage_rate_limited t11 uid _ d11 hge

/-- Witness for `send_message_rate_limit_window`: ten sends at seconds 1-10
all pass the limiter; an eleventh at second 11 is rejected with the
rate-limit error and persists nothing. -/
theorem send_message_rate_limit_window_witness :
    (∀ res ∈ (runSends "u1"
        ⟨[], ⟨[⟨"r1", "p1"⟩], [("p1", "u1")], [], [], [], false, false⟩⟩
        [(1000, ⟨some "r1", some "p1", some ['h'], "text", none⟩),
         (2000, ⟨some "r1", some "p1", some ['h'], "text", none⟩),
         (3000, ⟨some "r1", some "p1", some ['h'], "text", none⟩),
         (4000, ⟨some "r1", some "p1", some ['h'], "text", none⟩),
         (5000, ⟨some "r1", some "p1", some ['h'], "text", none⟩),
         (6000, ⟨some "r1", some "p1", some ['h'], "text", none⟩),
         (7000, ⟨some "r1", some "p1", some ['h'], "text", none⟩),
         (8000, ⟨some "r1", some "p1", some ['h'], "text", none⟩),
         (9000, ⟨some "r1", some "p1", some ['h'], "text", none⟩),
         (10000, ⟨some "r1", some "p1", some ['h'], "text", none⟩)]).2,
      res ≠ Except.error "Message rate limit exceeded") ∧
    sendMessage 11000 "u1" (runSends "u1"
        ⟨[], ⟨[⟨"r1", "p1"⟩], [("p1", "u1")], [], [], [], false, false⟩⟩
        [(1000, ⟨some "r1", some "p1", some ['h'], "text", none⟩),
         (2000, ⟨some "r1", some "p1", some ['h'], "text", none⟩),
         (3000, ⟨some "r1", some "p1", some ['h'], "text", none⟩),
         (4000, ⟨some "r1", some "p1", some ['h'], "text", none⟩),
         (5000, ⟨some "r1", some "p1", some ['h'], "text", none⟩),
         (6000, ⟨some "r1", some "p1", some ['h'], "text", none⟩),
         (7000, ⟨some "r1", some "p1", some ['h'], "text", none⟩),
         (8000, ⟨some "r1", some "p1", some ['h'], "text", none⟩),
         (9000, ⟨some "r1", some "p1", some ['h'], "text", none⟩),
         (10000, ⟨some "r1", some "p1", some ['h'], "text", none⟩)]).1
        ⟨some "r1", some "p1", some ['h'], "text", none⟩ =
      ((runSends "u1"
        ⟨[], ⟨[⟨"r1", "p1"⟩], [("p1", "u1")], [], [], [], false, false⟩⟩
        [(1000, ⟨some "r1", some "p1", some ['h'], "text", none⟩),
         (2000, ⟨some "r1", some "p1", some ['h'], "text", none⟩),
         (3000, ⟨some "r1", some "p1", some ['h'], "text", none⟩),
         (4000, ⟨some "r1", some "p1", some ['h'], "text", none⟩),
         (5000, ⟨some "r1", some "p1", some ['h'], "text", none⟩),
         (6000, ⟨some "r1", some "p1", some ['h'], "text", none⟩),
         (7000, ⟨some "r1", some "p1", some ['h'], "text", none⟩),
         (8000, ⟨some "r1", some "p1", some ['h'], "text", none⟩),
         (9000, ⟨some "r1", some "p1", some ['h'], "text", none⟩),
         (10000, ⟨some "r1", some "p1", some ['h'], "text", none⟩)]).1,
       Except.error "Message rate limit exceeded") :=
  send_message_rate_limit_window "u1" _ _ 11000 _ (by decide) (by decide)

/-! ## C9: truncation of long content -/

/-- C9: a `send_message` that passes validation and whose content exceeds
5000 units is persisted with exactly the 5000-unit prefix of the supplied
content. -/
theorem send_message_truncates_long_content (nowMs : Int) (uid : String)
    (prev : List Int) (store : Store) (d : MessageData) (r : ChatRoom)
    (pm : String × String) (c : List Char)
    (hc : d.content = some c) (hlong : 5000 < c.length)
    (hrate : ¬ MESSAGE_RATE_LIMIT ≤
      ((prev.filter (fun t => nowMs - 60000 < t)).length))
    (hkeep : ∀ x ∈ prev, ¬ x < nowMs - 60000)
    (hvalid : ¬ (idFalsy d.roomId = true ∨ contentFalsy d.content = true ∨
      idFalsy d.projectId = true))
    (hroom : roomQuery store (d.roomId.getD "") = some r)
    (hmem : memberQuery store (d.projectId.getD "") uid = some pm)
    (hins : store.chatInsertFails = false) :
    sendMessage nowMs uid ⟨prev, store⟩ d =
      (⟨prev ++ [nowMs],
        { store with chatMessages :=
            store.chatMessages ++ [insertedMessage uid d] }⟩,
       Except.ok (insertedMessage uid d)) ∧
    (insertedMessage uid d).content = c.take 5000 ∧
    (insertedMessage uid d).content.length = 5000 := by
  have h1 : (insertedMessage uid d).content = c.take 5000 := by
    simp [insertedMessage, hc, MAX_MESSAGE_LENGTH]
  refine ⟨sendMessage_ok nowMs uid prev store d r pm hrate hkeep hvalid
    hroom hmem hins, h1, ?_⟩
  rw [h1, List.length_take]
  exact Nat.min_eq_left (by omega)

/-! ## C1: no room-to-project consistency check in `send_message` -/

/-- C1 counterexample: room `r1` belongs to project `p2`, the sender is a
member of project `p1`, and the event names `roomId = r1, projectId = p1`;
the handler does NOT reject — it persists the message (the parallel checks
only verify that the room exists and that the sender is a member of the
given project; the room's own project id is never compared). -/
theorem send_message_cross_project_persists :
    roomQuery ⟨[⟨"r1", "p2"⟩], [("p1", "u1")], [], [], [], false, false⟩
        "r1" = some ⟨"r1", "p2"⟩ ∧
    ("p2" : String) ≠ "p1" ∧
    memberQuery ⟨[⟨"r1", "p2"⟩], [("p1", "u1")], [], [], [], false, false⟩
        "p1" "u1" = some ("p1", "u1") ∧
    sendMessage 60000 "u1"
        ⟨[], ⟨[⟨"r1", "p2"⟩], [("p1", "u1")], [], [], [], false, false⟩⟩
        ⟨some "r1", some "p1", some ['h', 'i'], "text", none⟩ =
      (⟨[60000],
        ⟨[⟨"r1", "p2"⟩], [("p1", "u1")], [],
         [⟨"r1", "u1", "text", ['h', 'i'], none⟩], [], false, false⟩⟩,
       Except.ok ⟨"r1", "u1", "text", ['h', 'i'], none⟩) := by
  refine ⟨by decide, by decide, by decide, ?_⟩
  rfl

/-- C1 (amended): when the room exists — regardless of which project it
belongs to — and the sender is a member of the *given* `projectId`, a
validated, non-rate-limited `send_message` is accepted and the message is
persisted; no check compares the room's `project_id` with the given
`projectId`. -/
theorem send_message_no_project_consistency_check (nowMs : Int)
    (uid : String) (prev : List Int) (store : Store) (d : MessageData)
    (r : ChatRoom) (pm : String × String)
    (_hmismatch : r.project_id ≠ d.projectId.getD "")
    (hrate : ¬ MESSAGE_RATE_LIMIT ≤
      ((prev.filter (fun t => nowMs - 60000 < t)).length))
    (hkeep : ∀ x ∈ prev, ¬ x < nowMs - 60000)
    (hvalid : ¬ (idFalsy d.roomId = true ∨ contentFalsy d.content = true ∨
      idFalsy d.projectId = true))
    (hroom : roomQuery store (d.roomId.getD "") = some r)
    (hmem : memberQuery store (d.projectId.getD "") uid = some pm)
    (hins : store.chatInsertFails = false) :
    sendMessage nowMs uid ⟨prev, store⟩ d =
      (⟨prev ++ [nowMs],
        { store with chatMessages :=
            store.chatMessages ++ [insertedMessage uid d] }⟩,
       Except.ok (insertedMessage uid d)) :=
  sendMessage_ok nowMs uid prev store d r pm hrate hkeep hvalid hroom
    hmem hins

/-! ## C10: a rejected send still consumes a rate-limit slot -/

/-- C10: the timestamp is pushed into the window before the payload is even
validated, so any `send_message` that passes the rate check but is then
rejected (for whatever reason) leaves the store untouched yet still adds one
entry to the connection's 60-second window. -/
theorem send_message_rejection_consumes_slot (nowMs : Int) (uid : String)
    (st : SendState) (d : MessageData) (st' : SendState) (m : String)
    (hrate : ¬ MESSAGE_RATE_LIMIT ≤
      (st.timestamps.filter (fun t => nowMs - 60000 < t)).length)
    (hrej : sendMessage nowMs uid st d = (st', Except.error m)) :
    m ≠ "Message rate limit exceeded" ∧
    st'.store = st.store ∧
    st'.timestamps =
      (st.timestamps ++ [nowMs]).dropWhile (fun t => t < nowMs - 60000) ∧
    nowMs ∈ st'.timestamps ∧
    (st'.timestamps.filter (fun t => nowMs - 60000 < t)).length =
      (st.timestamps.filter (fun t => nowMs - 60000 < t)).length + 1 := by
  have hconc : st' = advanceWindow nowMs st →
      st'.store = st.store ∧
      st'.timestamps =
        (st.timestamps ++ [nowMs]).dropWhile (fun t => t < nowMs - 60000) ∧
      nowMs ∈ st'.timestamps ∧
      (st'.timestamps.filter (fun t => nowMs - 60000 < t)).length =
        (st.timestamps.filter (fun t => nowMs - 60000 < t)).length + 1 := by
    intro h
    subst h
    refine ⟨rfl, rfl, ?_, ?_⟩
    · unfold advanceWindow
      apply mem_dropWhile_concat
      simp only [decide_eq_false_iff_not]
      omega
    · show (((st.timestamps ++ [nowMs]).dropWhile
          (fun t => decide (t < nowMs - 60000))).filter
          (fun t => decide (nowMs - 60000 < t))).length = _
      rw [filter_dropWhile (st.timestamps ++ [nowMs]) (by
        intro x hx
        simp only [decide_eq_true_eq] at hx
        simp only [decide_eq_false_iff_not]
        omega)]
      rw [List.filter_append]
      have hdec : decide (nowMs - 60000 < nowMs) = true := by
        simp only [decide_eq_true_eq]
        omega
      simp [hdec]
  unfold sendMessage at hrej
  rw [if_neg hrate] at hrej
  by_cases hv : idFalsy d.roomId = true ∨ contentFalsy d.content = true ∨
      idFalsy d.projectId = true
  · rw [if_pos hv] at hrej
    rw [Prod.mk.injEq] at hrej
    refine ⟨?_, hconc hrej.1.symm⟩
    have := hrej.2
    simp only [Except.error.injEq] at this
    rw [← this]
    decide
  · rw [if_neg hv] at hrej
    cases hr : roomQuery st.store (d.roomId.getD "") with
    | none =>
        rw [hr] at hrej
        rw [Prod.mk.injEq] at hrej
        refine ⟨?_, hconc hrej.1.symm⟩
        have := hrej.2
        simp only [Except.error.injEq] at this
        rw [← this]
        decide
    | some r =>
        rw [hr] at hrej
        cases hm : memberQuery st.store (d.projectId.getD "") uid with
        | none =>
            rw [hm] at hrej
            rw [Prod.mk.injEq] at hrej
            refine ⟨?_, hconc hrej.1.symm⟩
            have := hrej.2
            simp only [Except.error.injEq] at this
            rw [← this]
            decide
        | some pm =>
            rw [hm] at hrej
            by_cases hi : st.store.chatInsertFails = true
            · rw [if_pos hi] at hrej
              rw [Prod.mk.injEq] at hrej
              refine ⟨?_, hconc hrej.1.symm⟩
              have := hrej.2
              simp only [Except.error.injEq] at this
              rw [← this]
              decide
            · rw [if_neg hi] at hrej
              rw [Prod.mk.injEq] at hrej
              exact absurd hrej.2 (by simp)

theorem dropWhile_replicate_false {p : Char → Bool} {a : Char}
    (h : p a = false) (n : Nat) :
    (List.replicate n a).dropWhile p = List.replicate n a := by
  cases n with
  | zero => rfl
  | succ n => simp [List.replicate_succ, List.dropWhile_cons, h]

theorem jsTrim_replicate {a : Char} (h : a.isWhitespace = false) (n : Nat) :
    jsTrim (List.replicate n a) = List.replicate n a := by
  unfold jsTrim
  rw [dropWhile_replicate_false h, List.reverse_replicate,
    dropWhile_replicate_false h, List.reverse_replicate]

/-- Witness for `send_message_truncates_long_content`: 5001 copies of 'a'
are persisted as the 5000-unit prefix. -/
theorem send_message_truncates_long_content_witness :
    sendMessage 60000 "u1"
        ⟨[], ⟨[⟨"r1", "p1"⟩], [("p1", "u1")], [], [], [], false, false⟩⟩
        ⟨some "r1", some "p1", some (List.replicate 5001 'a'), "text",
          none⟩ =
      (⟨[] ++ [60000],
        { (⟨[⟨"r1", "p1"⟩], [("p1", "u1")], [], [], [], false, false⟩ :
            Store) with chatMessages :=
            [] ++ [insertedMessage "u1"
              ⟨some "r1", some "p1", some (List.replicate 5001 'a'),
                "text", none⟩] }⟩,
       Except.ok (insertedMessage "u1"
         ⟨some "r1", some "p1", some (List.replicate 5001 'a'), "text",
           none⟩)) ∧
    (insertedMessage "u1"
      ⟨some "r1", some "p1", some (List.replicate 5001 'a'), "text",
        none⟩).content = (List.replicate 5001 'a').take 5000 ∧
    (insertedMessage "u1"
      ⟨some "r1", some "p1", some (List.replicate 5001 'a'), "text",
        none⟩).content.length = 5000 :=
  send_message_truncates_long_content 60000 "u1" []
    ⟨[⟨"r1", "p1"⟩], [("p1", "u1")], [], [], [], false, false⟩
    ⟨some "r1", some "p1", some (List.replicate 5001 'a'), "text", none⟩
    ⟨"r1", "p1"⟩ ("p1", "u1") (List.replicate 5001 'a') rfl
    (by rw [List.length_replicate]; omega)
    (by decide) (by decide)
    (by
      have key : contentFalsy (some (List.replicate 5001 'a')) = false := by
        show decide (jsTrim (List.replicate 5001 'a') = []) = false
        rw [jsTrim_replicate (a := 'a') (by decide) 5001]
        apply decide_eq_false
        intro hnil
        have h2 := congrArg List.length hnil
        simp only [List.length_replicate, List.length_nil] at h2
        omega
      intro hcon
      rcases hcon with h | h | h
      · exact absurd h (by decide)
      · rw [key] at h
        exact Bool.false_ne_true h
      · exact absurd h (by decide))
    (by decide) (by decide) rfl

/-- Witness for `send_message_no_project_consistency_check`: the concrete
cross-project send from the counterexample scenario, accepted and
persisted. -/
theorem send_message_no_project_consistency_check_witness :
    sendMessage 60000 "u1"
        ⟨[], ⟨[⟨"r1", "p2"⟩], [("p1", "u1")], [], [], [], false, false⟩⟩
        ⟨some "r1", some "p1", some ['h', 'i'], "text", none⟩ =
      (⟨[] ++ [60000],
        { (⟨[⟨"r1", "p2"⟩], [("p1", "u1")], [], [], [], false, false⟩ :
            Store) with chatMessages :=
            [] ++ [insertedMessage "u1"
              ⟨some "r1", some "p1", some ['h', 'i'], "text", none⟩] }⟩,
       Except.ok (insertedMessage "u1"
         ⟨some "r1", some "p1", some ['h', 'i'], "text", none⟩)) :=
  send_message_no_project_consistency_check 60000 "u1" []
    ⟨[⟨"r1", "p2"⟩], [("p1", "u1")], [], [], [], false, false⟩
    ⟨some "r1", some "p1", some ['h', 'i'], "text", none⟩
    ⟨"r1", "p2"⟩ ("p1", "u1") (by decide) (by decide) (by decide)
    (by decide) (by decide) (by decide) rfl

/-- Witness for `send_message_rejection_consumes_slot`: a send with an empty
payload is rejected as invalid, persists nothing, yet its timestamp occupies
a window slot. -/
theorem send_message_rejection_consumes_slot_witness :
    ("Invalid message data" : String) ≠ "Message rate limit exceeded" ∧
    (⟨[60000], ⟨[], [], [], [], [], false, false⟩⟩ : SendState).store =
      (⟨[], ⟨[], [], [], [], [], false, false⟩⟩ : SendState).store ∧
    (⟨[60000], ⟨[], [], [], [], [], false, false⟩⟩ : SendState).timestamps =
      (([] : List Int) ++ [60000]).dropWhile
        (fun t => t < (60000 : Int) - 60000) ∧
    (60000 : Int) ∈
      (⟨[60000], ⟨[], [], [], [], [], false, false⟩⟩ :
        SendState).timestamps ∧
    ((⟨[60000], ⟨[], [], [], [], [], false, false⟩⟩ :
        SendState).timestamps.filter
      (fun t => (60000 : Int) - 60000 < t)).length =
      ((⟨[], ⟨[], [], [], [], [], false, false⟩⟩ :
          SendState).timestamps.filter
        (fun t => (60000 : Int) - 60000 < t)).length + 1 :=
  send_message_rejection_consumes_slot 60000 "u1"
    ⟨[], ⟨[], [], [], [], [], false, false⟩⟩
    ⟨none, none, none, "text", none⟩
    ⟨[60000], ⟨[], [], [], [], [], false, false⟩⟩
    "Invalid message data" (by decide) rfl

/-! ## C5: friend messages and the single-row friendship lookup -/

/-- C5 counterexample: with accepted friendship rows in BOTH directions
between u1 and u2 (so "an accepted row exists in either direction"), the
`.single()` lookup sees two rows and fails, and the send is rejected as
"Not friends with this user" with nothing persisted — contradicting the
claim that it would be persisted and delivered. -/
theorem send_friend_message_dual_rows_rejected :
    ((⟨"u1", "u2", "accepted"⟩ : Friendship) ∈
      ([⟨"u1", "u2", "accepted"⟩, ⟨"u2", "u1", "accepted"⟩] :
        List Friendship)) ∧
    ((⟨"u2", "u1", "accepted"⟩ : Friendship) ∈
      ([⟨"u1", "u2", "accepted"⟩, ⟨"u2", "u1", "accepted"⟩] :
        List Friendship)) ∧
    sendFriendMessage "u1"
        ⟨[], [], [⟨"u1", "u2", "accepted"⟩, ⟨"u2", "u1", "accepted"⟩],
         [], [], false, false⟩
        (some "u2") (some ['y', 'o']) =
      (⟨[], [], [⟨"u1", "u2", "accepted"⟩, ⟨"u2", "u1", "accepted"⟩],
        [], [], false, false⟩,
       [⟨EmitTarget.sender, "error",
         Payload.err "Not friends with this user"⟩]) :=
  ⟨by decide, by decide, rfl⟩

/-- C5 (amended): with valid inputs, if the friendship lookup (which
requires exactly one accepted row matching either direction) returns no row
— because none exists, or because rows exist in both directions — the send
is rejected with an error and nothing is persisted; if it returns a row and
the insert succeeds, the trimmed message is persisted and delivered only to
the recipient's mailbox room `user_{recipientId}`, with a separate
`friend_message_sent` acknowledgement to the sender. -/
theorem send_friend_message_spec (senderId rid : String) (store : Store)
    (c : List Char)
    (hrid : ¬ idFalsy (some rid) = true)
    (hc : ¬ contentFalsy (some c) = true) :
    (friendshipQuery store senderId rid = none →
      sendFriendMessage senderId store (some rid) (some c) =
        (store,
         [⟨EmitTarget.sender, "error",
           Payload.err "Not friends with this user"⟩])) ∧
    (∀ f : Friendship, friendshipQuery store senderId rid = some f →
      store.friendInsertFails = false →
      sendFriendMessage senderId store (some rid) (some c) =
        ({ store with friendMessages := store.friendMessages ++
            [sentFriendMessage senderId (some rid) (some c)] },
         [⟨EmitTarget.room ("user_" ++ rid), "friend_message",
           Payload.friendMessage senderId
             (sentFriendMessage senderId (some rid) (some c))⟩,
          ⟨EmitTarget.sender, "friend_message_sent",
           Payload.friendMessageSent
             (sentFriendMessage senderId (some rid) (some c))⟩])) := by
  have hval : ¬ (idFalsy (some rid) = true ∨
      contentFalsy (some c) = true) := by
    intro h
    rcases h with h | h
    · exact hrid h
    · exact hc h
  constructor
  · intro hnone
    unfold sendFriendMessage
    rw [if_neg hval]
    simp only [Option.getD_some]
    rw [hnone]
  · intro f hf hins
    unfold sendFriendMessage
    rw [if_neg hval]
    simp only [Option.getD_some]
    rw [hf]
    rw [if_neg (by simp [hins])]

/-- Witness for `send_friend_message_spec`: a single accepted row in the
reverse direction (u2 requested u1) lets u1 message u2; the message lands in
`user_u2` and the sender gets the acknowledgement. -/
theorem send_friend_message_spec_witness :
    sendFriendMessage "u1"
        ⟨[], [], [⟨"u2", "u1", "accepted"⟩], [], [], false, false⟩
        (some "u2") (some ['y', 'o']) =
      ({ (⟨[], [], [⟨"u2", "u1", "accepted"⟩], [], [], false, false⟩ :
          Store) with friendMessages := [] ++
            [sentFriendMessage "u1" (some "u2") (some ['y', 'o'])] },
       [⟨EmitTarget.room ("user_" ++ "u2"), "friend_message",
         Payload.friendMessage "u1"
           (sentFriendMessage "u1" (some "u2") (some ['y', 'o']))⟩,
        ⟨EmitTarget.sender, "friend_message_sent",
         Payload.friendMessageSent
           (sentFriendMessage "u1" (some "u2") (some ['y', 'o']))⟩]) :=
  (send_friend_message_spec "u1" "u2"
      ⟨[], [], [⟨"u2", "u1", "accepted"⟩], [], [], false, false⟩
      ['y', 'o'] (by decide) (by decide)).2
    ⟨"u2", "u1", "accepted"⟩ (by decide) rfl

/-! ## C2: typing_start while already typing -/

/-- C2 counterexample: two `typing_start` signals for the same room 3
seconds apart (well within the 5-second window) produce TWO `user_typing`
broadcasts — the handler re-emits `user_typing` on every start signal, so
"exactly one `user_typing` across the sequence" is false. -/
theorem typing_double_start_two_broadcasts :
    ((runTyping "u1" "alice" []
        [TypingEvent.start 0 "r1" "p1", TypingEvent.start 3000 "r1" "p1"]
        20000).2.filter (fun e => e.event = "user_typing")).length = 2 ∧
    ¬ ((runTyping "u1" "alice" []
        [TypingEvent.start 0 "r1" "p1", TypingEvent.start 3000 "r1" "p1"]
        20000).2.filter (fun e => e.event = "user_typing")).length = 1 :=
  ⟨rfl, by decide⟩

/-- C2 (amended): a `typing_start` received while the room's 5-second timer
is armed cancels and re-arms the timer — no `user_stopped_typing` fires at
the first deadline, and exactly one fires 5 seconds after the second start —
but it DOES re-broadcast `user_typing`: the whole sequence emits one
`user_typing` per start signal (two in total), not one. -/
theorem typing_restart_rearms_and_rebroadcasts
    (uid uname roomId pid : String) (t1 t2 h1 h2 : Int)
    (ht : t1 ≤ t2) (hlt : t2 < t1 + 5000)
    (hh1a : t1 + 5000 ≤ h1) (hh1b : h1 < t2 + 5000)
    (hh2 : t2 + 5000 ≤ h2) :
    (runTyping uid uname []
        [TypingEvent.start t1 roomId pid, TypingEvent.start t2 roomId pid]
        h1).2 =
      [⟨EmitTarget.roomExceptSender ("room_" ++ roomId), "user_typing",
        Payload.userTyping uid uname roomId pid⟩,
       ⟨EmitTarget.roomExceptSender ("room_" ++ roomId), "user_typing",
        Payload.userTyping uid uname roomId pid⟩] ∧
    (runTyping uid uname []
        [TypingEvent.start t1 roomId pid, TypingEvent.start t2 roomId pid]
        h2).2 =
      [⟨EmitTarget.roomExceptSender ("room_" ++ roomId), "user_typing",
        Payload.userTyping uid uname roomId pid⟩,
       ⟨EmitTarget.roomExceptSender ("room_" ++ roomId), "user_typing",
        Payload.userTyping uid uname roomId pid⟩,
       ⟨EmitTarget.roomExceptSender ("room_" ++ roomId),
        "user_stopped_typing",
        Payload.userStoppedTyping uid roomId pid⟩] := by
  have f1 : ¬ (t1 + 5000 ≤ t2) := by omega
  have f2 : ¬ (t2 + 5000 ≤ h1) := by omega
  constructor
  · simp [runTyping, fireExpired, typingHandle, aset, TypingEvent.time,
      f1, f2, hlt, hh1b]
  · simp [runTyping, fireExpired, typingHandle, aset, TypingEvent.time,
      f1, hlt, hh2]

/-- Witness for `typing_restart_rearms_and_rebroadcasts`: starts at 0 s and
3 s; by 6 s no stop has fired (the 5 s timer was reset), by 8 s exactly one
has. -/
theorem typing_restart_rearms_and_rebroadcasts_witness :
    (runTyping "u1" "alice" []
        [TypingEvent.start 0 "r1" "p1", TypingEvent.start 3000 "r1" "p1"]
        6000).2 =
      [⟨EmitTarget.roomExceptSender ("room_" ++ "r1"), "user_typing",
        Payload.userTyping "u1" "alice" "r1" "p1"⟩,
       ⟨EmitTarget.roomExceptSender ("room_" ++ "r1"), "user_typing",
        Payload.userTyping "u1" "alice" "r1" "p1"⟩] ∧
    (runTyping "u1" "alice" []
        [TypingEvent.start 0 "r1" "p1", TypingEvent.start 3000 "r1" "p1"]
        8000).2 =
      [⟨EmitTarget.roomExceptSender ("room_" ++ "r1"), "user_typing",
        Payload.userTyping "u1" "alice" "r1" "p1"⟩,
       ⟨EmitTarget.roomExceptSender ("room_" ++ "r1"), "user_typing",
        Payload.userTyping "u1" "alice" "r1" "p1"⟩,
       ⟨EmitTarget.roomExceptSender ("room_" ++ "r1"),
        "user_stopped_typing",
        Payload.userStoppedTyping "u1" "r1" "p1"⟩] :=
  typing_restart_rearms_and_rebroadcasts "u1" "alice" "r1" "p1"
    0 3000 6000 8000 (by decide) (by decide) (by decide) (by decide)
    (by decide)

end TechSync
